import Mathlib

/-!
# Verification of the Aroya Air search-and-reservation core

Shallow embedding of the repository's flight search / reservation engine
(`models.py`, `utils.py`, `tools.py`) and proofs of the specification claims.

Modelling conventions:
* Python `float` currency amounts are modelled as exact rationals (`ℚ`);
  `round(x, 2)` is modelled by `round2` (round-half-to-even, Python's rule).
* Python `datetime.date` / `datetime.datetime` are modelled by `Date` /
  `DateTime` records on `Int`/`Nat` fields with explicit calendar arithmetic.
* The process clock (`datetime.now`, `datetime.today`) is passed explicitly
  as a `now : DateTime` / `today : Date` parameter.
* `uuid.uuid4().hex[:8].upper()` is an external entropy source; it is
  modelled as an ambient stream of tokens (`uuidTokens : Nat → String`)
  consumed one at a time, threaded through the system state.
* Python heterogeneous values (passenger entries, JSON results) are
  modelled by the `PyVal` type; Python truthiness by `PyVal.truthy`.
* A Python function that can raise returns `Except PyExn _`.
-/

namespace AroyaAir

/-- Calendar date (`datetime.date`): year, month (1-12), day (1-31). -/
structure Date where
  year : Int
  month : Nat
  day : Nat
deriving DecidableEq, Repr

/-- Gregorian leap-year rule. -/
def isLeap (y : Int) : Bool := (y % 4 == 0 && y % 100 != 0) || (y % 400 == 0)

/-- Number of days of month `m` in year `y`. -/
def daysInMonth (y : Int) (m : Nat) : Nat :=
  if m = 2 then (if isLeap y then 29 else 28)
  else if m = 4 ∨ m = 6 ∨ m = 9 ∨ m = 11 then 30
  else 31

/-- `d + timedelta(days=1)`: the next calendar day. -/
def Date.addOneDay (d : Date) : Date :=
  if d.day < daysInMonth d.year d.month then ⟨d.year, d.month, d.day + 1⟩
  else if d.month < 12 then ⟨d.year, d.month + 1, 1⟩
  else ⟨d.year + 1, 1, 1⟩

/-- Zero-padded two-digit decimal rendering. -/
def pad2 (n : Nat) : String := if n < 10 then "0" ++ toString n else toString n

/-- Zero-padded four-digit rendering of a natural number. -/
def pad4Nat (n : Nat) : String :=
  if n < 10 then "000" ++ toString n
  else if n < 100 then "00" ++ toString n
  else if n < 1000 then "0" ++ toString n
  else toString n

/-- Zero-padded four-digit year rendering (years in the data are 4-digit). -/
def pad4 (y : Int) : String :=
  if y < 0 then "-" ++ pad4Nat y.natAbs else pad4Nat y.toNat

/-- `date.isoformat()`: `YYYY-MM-DD`. -/
def Date.iso (d : Date) : String := pad4 d.year ++ "-" ++ pad2 d.month ++ "-" ++ pad2 d.day

/-- Timezone-aware timestamp (`datetime.datetime`); `tzMinutes` is the UTC
offset in minutes when an offset is attached. -/
structure DateTime where
  date : Date
  hour : Nat := 0
  minute : Nat := 0
  second : Nat := 0
  tzMinutes : Option Int := none
deriving DecidableEq, Repr

/-- Rendering of a UTC offset as in `datetime.isoformat()` (`+HH:MM`). -/
def tzSuffix : Option Int → String
  | none => ""
  | some off =>
      let sign := if off < 0 then "-" else "+"
      let a := off.natAbs
      sign ++ pad2 (a / 60) ++ ":" ++ pad2 (a % 60)

/-- `datetime.isoformat()`. -/
def DateTime.isoformat (t : DateTime) : String :=
  t.date.iso ++ "T" ++ pad2 t.hour ++ ":" ++ pad2 t.minute ++ ":" ++ pad2 t.second
    ++ tzSuffix t.tzMinutes

/-! ## String primitives

Python string operations are re-implemented on `List Char` by structural
recursion so that every definition evaluates inside the kernel. -/

/-- `s.strip()`: drop whitespace from both ends. -/
def strTrim (s : String) : String :=
  ⟨((s.data.dropWhile Char.isWhitespace).reverse.dropWhile Char.isWhitespace).reverse⟩

/-- `s.lower()` (ASCII, as in the data). -/
def strLower (s : String) : String := ⟨s.data.map Char.toLower⟩

/-- Whitespace tokenizer behind `s.split()`: accumulate the current token. -/
def wsTokensAux : List Char → List Char → List (List Char)
  | [], acc => if acc.isEmpty then [] else [acc.reverse]
  | c :: cs, acc =>
      if c.isWhitespace then
        if acc.isEmpty then wsTokensAux cs [] else acc.reverse :: wsTokensAux cs []
      else wsTokensAux cs (c :: acc)

/-- `s.split()`: split on whitespace runs, dropping empty pieces. -/
def pySplitWs (s : String) : List String := (wsTokensAux s.data []).map String.mk

/-- `sep.join(l)`. -/
def joinWith (sep : String) : List String → String
  | [] => ""
  | [x] => x
  | x :: y :: rest => x ++ sep ++ joinWith sep (y :: rest)

/-- `s.replace(pat, rep)` (all non-overlapping occurrences, left to right;
`pat` nonempty at every use site). -/
def replaceAux (pat rep : List Char) : Nat → List Char → List Char
  | 0, cs => cs
  | _ + 1, [] => []
  | fuel + 1, c :: cs =>
      if (c :: cs).take pat.length = pat ∧ pat ≠ [] then
        rep ++ replaceAux pat rep fuel ((c :: cs).drop pat.length)
      else c :: replaceAux pat rep fuel cs

def strReplace (s pat rep : String) : String :=
  ⟨replaceAux pat.data rep.data s.data.length s.data⟩

/-- `s.endswith(suffix)`. -/
def strEndsWith (s suffix : String) : Bool :=
  suffix.data.length ≤ s.data.length &&
    s.data.drop (s.data.length - suffix.data.length) == suffix.data

/-- `s.startswith(p)`. -/
def strStartsWith (s p : String) : Bool := s.data.take p.data.length == p.data

/-- `c in s` for a single character. -/
def strContains (s : String) (c : Char) : Bool := s.data.contains c

/-- `s.split(sep)` for a one-character separator. -/
def splitOnCharAux (sep : Char) : List Char → List Char → List (List Char)
  | [], acc => [acc.reverse]
  | c :: cs, acc =>
      if c = sep then acc.reverse :: splitOnCharAux sep cs []
      else splitOnCharAux sep cs (c :: acc)

def strSplitOnChar (s : String) (sep : Char) : List String :=
  (splitOnCharAux sep s.data []).map String.mk

/-- Digit-run to number, requiring every character to be a digit. -/
def digitsToNat? : List Char → Option Nat
  | [] => none
  | cs =>
      if cs.all Char.isDigit then
        some (cs.foldl (fun a c => a * 10 + (c.toNat - 48)) 0)
      else none

/-- `int(s)` on a string: optional sign, decimal digits, surrounding spaces. -/
def strToInt? (s : String) : Option Int :=
  match (strTrim s).data with
  | '-' :: rest => (digitsToNat? rest).map (fun n => -(n : Int))
  | '+' :: rest => (digitsToNat? rest).map (fun n => (n : Int))
  | cs => (digitsToNat? cs).map (fun n => (n : Int))

/-! ## String helpers (`utils.normalize`) -/

/-- `" ".join(s.strip().lower().split())`: lower-case and collapse whitespace. -/
def normalize (s : String) : String :=
  joinWith " " (pySplitWs (strLower (strTrim s)))

/-! ## ISO-8601 timestamp parsing (`datetime.fromisoformat`, Python ≥ 3.11)

Only the forms that can reach this code are modelled: a dashed calendar date,
optionally followed by a `T`/space separator, a `HH[:MM[:SS[.ffffff]]]` time,
and an optional `±HH:MM` offset or a literal `Z`/`z` (UTC). -/

/-- Take exactly `n` leading decimal digits. -/
def takeDigits : Nat → List Char → Option (Nat × List Char)
  | 0, cs => some (0, cs)
  | n + 1, c :: cs =>
      if c.isDigit then
        (takeDigits n cs).map (fun p => ((c.toNat - 48) * 10 ^ n + p.1, p.2))
      else none
  | _ + 1, [] => none

/-- Expect a given literal character. -/
def expectChar (c : Char) : List Char → Option (List Char)
  | c' :: cs => if c = c' then some cs else none
  | [] => none

/-- Parse the `YYYY-MM-DD` date part, validating the calendar. -/
def parseIsoDatePart (cs : List Char) : Option (Date × List Char) := do
  let (y, cs) ← takeDigits 4 cs
  let cs ← expectChar '-' cs
  let (m, cs) ← takeDigits 2 cs
  let cs ← expectChar '-' cs
  let (d, cs) ← takeDigits 2 cs
  if 1 ≤ m ∧ m ≤ 12 ∧ 1 ≤ d ∧ d ≤ daysInMonth y m then
    some (⟨(y : Int), m, d⟩, cs)
  else none

/-- Parse an optional fractional-seconds suffix `.ffffff` (value discarded:
the calendar date never depends on it). -/
def skipFraction : List Char → List Char
  | '.' :: c :: cs => if c.isDigit then (c :: cs).dropWhile Char.isDigit else '.' :: c :: cs
  | cs => cs

/-- Parse the trailing UTC-offset part: empty, `Z`/`z`, or `±HH:MM`. -/
def parseIsoOffset (cs : List Char) : Option (Option Int) :=
  match cs with
  | [] => some none
  | ['Z'] => some (some 0)
  | ['z'] => some (some 0)
  | s :: rest =>
      if s = '+' ∨ s = '-' then do
        let (h, rest) ← takeDigits 2 rest
        let rest ← expectChar ':' rest
        let (m, rest) ← takeDigits 2 rest
        if rest = [] ∧ h ≤ 23 ∧ m ≤ 59 then
          some (some ((if s = '-' then -1 else 1) * ((h : Int) * 60 + m)))
        else none
      else none

/-- Parse the `HH[:MM[:SS[.f]]]` time-of-day part followed by the offset. -/
def parseIsoTimePart (d : Date) (cs : List Char) : Option DateTime := do
  let (h, cs) ← takeDigits 2 cs
  if h > 23 then none else
  match cs with
  | ':' :: cs => do
      let (mi, cs) ← takeDigits 2 cs
      if mi > 59 then none else
      match cs with
      | ':' :: cs => do
          let (se, cs) ← takeDigits 2 cs
          if se > 59 then none else do
          let tz ← parseIsoOffset (skipFraction cs)
          some ⟨d, h, mi, se, tz⟩
      | cs => do
          let tz ← parseIsoOffset cs
          some ⟨d, h, mi, 0, tz⟩
  | cs => do
      let tz ← parseIsoOffset cs
      some ⟨d, h, 0, 0, tz⟩

/-- `datetime.fromisoformat` (the subset reachable here). -/
def fromisoformat (s : String) : Option DateTime := do
  let (d, cs) ← parseIsoDatePart s.data
  match cs with
  | [] => some ⟨d, 0, 0, 0, none⟩
  | sep :: rest =>
      if sep = 'T' ∨ sep = 't' ∨ sep = ' ' then parseIsoTimePart d rest
      else none

/-! ## `utils.parse_date_flexible` and its `strptime` pattern table -/

/-- A `strptime` format token: `%Y`, `%m`, `%d`, `%b`, `%B`, or a literal. -/
inductive FmtTok
  | Y | m | d | b | B | lit (c : Char)
deriving DecidableEq, Repr

def monthAbbrs : List String :=
  ["jan", "feb", "mar", "apr", "may", "jun", "jul", "aug", "sep", "oct", "nov", "dec"]

def monthFulls : List String :=
  ["january", "february", "march", "april", "may", "june", "july", "august",
   "september", "october", "november", "december"]

/-- Partially-filled `strptime` result. -/
structure StrpAcc where
  year : Option Nat := none
  month : Option Nat := none
  day : Option Nat := none
deriving Repr

/-- Case-insensitive month-name prefix match against a name table.  (CPython
tries longer alternatives first; since no month name in either table is a
prefix of another, plain table order is equivalent.)  Returns the 1-based
month and the remaining input. -/
def matchMonthName (table : List String) (cs : List Char) : Option (Nat × List Char) :=
  let lowered := (cs.map Char.toLower)
  let indexed := table.enum.map (fun p => (p.2, p.1 + 1))
  (indexed.find? (fun p => lowered.take p.1.length = p.1.data)).map
    (fun p => (p.2, cs.drop p.1.length))

/-- Take one or two leading digits; the two-digit (greedy) reading is tried
first, mirroring the regex `\d{1,2}` with backtracking. -/
def takeOneOrTwoDigits (cs : List Char) : List (Nat × List Char) :=
  ((takeDigits 2 cs).toList) ++ ((takeDigits 1 cs).toList)

/-- Match one token, returning every possible (accumulator, rest) outcome in
backtracking priority order. -/
def matchTok : FmtTok → StrpAcc → List Char → List (StrpAcc × List Char)
  | .Y, acc, cs => ((takeDigits 4 cs).toList).map (fun p => ({ acc with year := some p.1 }, p.2))
  | .m, acc, cs => (takeOneOrTwoDigits cs).map (fun p => ({ acc with month := some p.1 }, p.2))
  | .d, acc, cs => (takeOneOrTwoDigits cs).map (fun p => ({ acc with day := some p.1 }, p.2))
  | .b, acc, cs => ((matchMonthName monthAbbrs cs).toList).map (fun p => ({ acc with month := some p.1 }, p.2))
  | .B, acc, cs => ((matchMonthName monthFulls cs).toList).map (fun p => ({ acc with month := some p.1 }, p.2))
  | .lit ' ', acc, cs =>
      -- whitespace in a format matches one-or-more whitespace characters
      let rest := cs.dropWhile Char.isWhitespace
      if rest.length < cs.length then [(acc, rest)] else []
  | .lit c, acc, cs =>
      match cs with
      | c' :: rest => if c = c' then [(acc, rest)] else []
      | [] => []

/-- Match a whole token list against the whole input (with backtracking). -/
def matchToks : List FmtTok → StrpAcc → List Char → List StrpAcc
  | [], acc, cs => if cs = [] then [acc] else []
  | t :: ts, acc, cs => (matchTok t acc cs).flatMap (fun p => matchToks ts p.1 p.2)

/-- `datetime.strptime(v, fmt).date()` for the date-only formats used here:
defaults are year 1900, month 1, day 1; the resulting calendar date must be
valid or the whole parse fails (`ValueError`). -/
def strptimeDate (toks : List FmtTok) (v : String) : Option Date :=
  match (matchToks toks {} v.data).head? with
  | none => none
  | some acc =>
      let y : Int := (acc.year.getD 1900 : Nat)
      let m := acc.month.getD 1
      let d := acc.day.getD 1
      if 1 ≤ m ∧ m ≤ 12 ∧ 1 ≤ d ∧ d ≤ daysInMonth y m then some ⟨y, m, d⟩ else none

/-- The source's `_DATE_PATTERNS` list, in order. -/
def _DATE_PATTERNS : List (List FmtTok) :=
  [ [.Y, .lit '-', .m, .lit '-', .d], [.Y, .lit '/', .m, .lit '/', .d],
    [.d, .lit '-', .m, .lit '-', .Y], [.d, .lit '/', .m, .lit '/', .Y],
    [.m, .lit '-', .d, .lit '-', .Y], [.m, .lit '/', .d, .lit '/', .Y],
    [.d, .lit ' ', .b, .lit ' ', .Y], [.d, .lit ' ', .B, .lit ' ', .Y],
    [.b, .lit ' ', .d, .lit ',', .lit ' ', .Y], [.B, .lit ' ', .d, .lit ',', .lit ' ', .Y],
    [.d, .lit ' ', .b], [.d, .lit ' ', .B], [.b, .lit ' ', .d], [.B, .lit ' ', .d] ]

/-- The pattern loop of `parse_date_flexible`: first matching pattern wins;
if the pattern has no `%Y` the current year is substituted
(`dt.replace(year=today.year)`, whose `ValueError` is also caught). -/
def tryPatterns (today : Date) : List (List FmtTok) → String → Option Date
  | [], _ => none
  | fmt :: rest, v =>
      match strptimeDate fmt v with
      | some dt =>
          if fmt.contains .Y then some dt
          else if dt.day ≤ daysInMonth today.year dt.month then
            some ⟨today.year, dt.month, dt.day⟩
          else tryPatterns today rest v
      | none => tryPatterns today rest v

/-- `utils.parse_date_flexible(value, today)`.  Note the source's lowercase-z
quirk: `v.replace("z", "+00:00")` is applied when `v` ends in `Z` or `z`, but
only the lowercase `z` is actually replaced; `fromisoformat` itself accepts a
trailing uppercase `Z` (Python ≥ 3.11). -/
def parse_date_flexible (value : String) (today : Date) : Option Date :=
  if value = "" then none
  else
    let v := strTrim value
    let low := strLower v
    if low = "today" then some today
    else if low = "tomorrow" then some today.addOneDay
    else
      let iso_v :=
        if strEndsWith v "Z" ∨ strEndsWith v "z" then strReplace v "z" "+00:00" else v
      match fromisoformat iso_v with
      | some dtv => some dtv.date
      | none =>
          match tryPatterns today _DATE_PATTERNS v with
          | some d => some d
          | none => strptimeDate [.Y, .lit '-', .m, .lit '-', .d] v

/-! ## Domain model (`models.py`) -/

/-- `FlightStatus` enumeration. -/
inductive FlightStatus
  | onTime | delayed | cancelled | landed
deriving DecidableEq, Repr

/-- The `.value` string of a `FlightStatus` member. -/
def FlightStatus.val : FlightStatus → String
  | .onTime => "On Time"
  | .delayed => "Delayed"
  | .cancelled => "Cancelled"
  | .landed => "Landed"

/-- Cabin classes (`Literal["Economy","Business","First"]`). -/
inductive CabinClass
  | economy | business | first
deriving DecidableEq, Repr

/-- The literal string of a cabin class. -/
def CabinClass.val : CabinClass → String
  | .economy => "Economy"
  | .business => "Business"
  | .first => "First"

/-- `Gender` enumeration. -/
inductive Gender
  | male | female | other
deriving DecidableEq, Repr

/-- `round(x, 2)` on an exact rational: round half to even at 2 decimals. -/
def round2 (q : ℚ) : ℚ :=
  let r := q * 100
  let f : ℤ := ⌊r⌋
  let n : ℤ :=
    if r - f < 1/2 then f
    else if r - f > 1/2 then f + 1
    else if f % 2 = 0 then f else f + 1
  (n : ℚ) / 100

/-- `CLASS_MULTIPLIER` dict from `models.py`. -/
def CLASS_MULTIPLIER : List (String × ℚ) :=
  [("Economy", 1.00), ("Business", 1.60), ("First", 2.25)]

/-- `dict.get(k, default)` on an association list. -/
def dictGetD (d : List (String × ℚ)) (k : String) (dflt : ℚ) : ℚ :=
  (((d.find? (fun p => p.1 = k)).map Prod.snd)).getD dflt

/-- The `Flight` record.  `available_classes` carries the pydantic guarantee
that every member is one of the three literal classes. -/
structure Flight where
  flight_id : String
  airline : String
  flight_number : String
  departure_city : String
  arrival_city : String
  departure_airport : String
  arrival_airport : String
  departure_airport_code : String
  arrival_airport_code : String
  departure_time : DateTime
  arrival_time : DateTime
  duration : String
  aircraft_type : String
  baggage_allowance : String
  available_classes : List CabinClass
  price_usd : ℚ
  seats_available : Int
  wifi_available : Bool
  inflight_entertainment : Bool
  status : FlightStatus
deriving DecidableEq, Repr

/-- `Flight._derived_class_prices`: per-class price dictionary. -/
def Flight._derived_class_prices (f : Flight) : List (String × ℚ) :=
  f.available_classes.map
    (fun c => (c.val, round2 (f.price_usd * dictGetD CLASS_MULTIPLIER c.val 1.0)))

/-- The public rendering produced by `Flight.to_public` (the nested from/to
blocks are flattened into prefixed fields). -/
structure PublicFlight where
  flight_id : String
  airline : String
  flight_number : String
  from_city : String
  from_airport : String
  from_code : String
  from_departure_time : String
  to_city : String
  to_airport : String
  to_code : String
  to_arrival_time : String
  duration : String
  aircraft_type : String
  baggage_allowance : String
  available_classes : List CabinClass
  prices_usd : List (String × ℚ)
  base_price_usd : ℚ
  seats_available : Int
  wifi : Bool
  inflight_entertainment : Bool
  status : String
deriving DecidableEq, Repr

/-- `Flight.to_public`. -/
def Flight.to_public (f : Flight) : PublicFlight :=
  { flight_id := f.flight_id
    airline := f.airline
    flight_number := f.flight_number
    from_city := f.departure_city
    from_airport := f.departure_airport
    from_code := f.departure_airport_code
    from_departure_time := f.departure_time.isoformat
    to_city := f.arrival_city
    to_airport := f.arrival_airport
    to_code := f.arrival_airport_code
    to_arrival_time := f.arrival_time.isoformat
    duration := f.duration
    aircraft_type := f.aircraft_type
    baggage_allowance := f.baggage_allowance
    available_classes := f.available_classes
    prices_usd := f._derived_class_prices
    base_price_usd := round2 f.price_usd
    seats_available := f.seats_available
    wifi := f.wifi_available
    inflight_entertainment := f.inflight_entertainment
    status := f.status.val }

/-- `SearchCriteria`.  `departure_city = some ""` is representable because
pydantic accepts an empty string; the engine treats it as absent through
Python truthiness (`optTruthyStr`). -/
structure SearchCriteria where
  departure_city : Option String := none
  arrival_city : Option String := none
  departure_date : Option Date := none
  passengers : Int := 1
  class_preference : Option CabinClass := none
deriving DecidableEq, Repr

/-- Validated `Passenger` record. -/
structure Passenger where
  name : String
  age : Int
  gender : Gender
  dob : Date
  email : String
deriving DecidableEq, Repr

/-- Python truthiness of an optional string (`None` and `""` are falsy). -/
def optTruthyStr : Option String → Bool
  | some s => s ≠ ""
  | none => false

/-- `x or y` on integers (`0` is falsy). -/
def pyOrInt (x dflt : Int) : Int := if x ≠ 0 then x else dflt

/-- `x or y` on optional strings: first operand when truthy, else second. -/
def pyOrStr (a b : Option String) : Option String := if optTruthyStr a then a else b

/-! ## `utils.py`: bookability, matching, facets -/

/-- `is_bookable`: status not in `{CANCELLED, LANDED}`. -/
def is_bookable (f : Flight) : Bool :=
  f.status != .cancelled && f.status != .landed

/-- One city constraint of `matches_cities` / `facets_for`: a falsy constraint
passes every flight, otherwise normalized names must be equal. -/
def cityConstraintOk (constraint : Option String) (city : String) : Bool :=
  match constraint with
  | none => true
  | some s => if s = "" then true else normalize city == normalize s

/-- `matches_cities`. -/
def matches_cities (f : Flight) (c : SearchCriteria) : Bool :=
  cityConstraintOk c.departure_city f.departure_city &&
  cityConstraintOk c.arrival_city f.arrival_city

/-- `matches_date`. -/
def matches_date (f : Flight) (d : Option Date) : Bool :=
  match d with
  | none => true
  | some dd => f.departure_time.date == dd

/-- Sorted distinct list: `sorted(set(xs))` for strings. -/
def sortedDedup (l : List String) : List String :=
  List.insertionSort (· ≤ ·) l.dedup

/-- The facets block. -/
structure Facets where
  available_destinations : List String
  available_dates : List String
deriving DecidableEq, Repr

/-- `facets_for`: destinations and departure dates over the flights matching
only the (truthy) city constraints. -/
def facets_for (flights : List Flight) (c : SearchCriteria) : Facets :=
  let matching := flights.filter (fun f =>
    cityConstraintOk c.departure_city f.departure_city &&
    cityConstraintOk c.arrival_city f.arrival_city)
  { available_destinations := sortedDedup (matching.map (fun f => f.arrival_city))
    available_dates := sortedDedup (matching.map (fun f => f.departure_time.date.iso)) }

/-! ## `tools.py`: search -/

/-- Uniform response envelope. -/
structure Envelope (α : Type) where
  ok : Bool
  code : String
  message : String
  data : α
deriving DecidableEq, Repr

/-- `_coerce_date_to_iso` for a string-or-None raw value.  The source returns
the ISO text of the parsed date, which `SearchCriteria` parses back to a
`date`; the round-trip is the identity, so the model returns the date. -/
def _coerce_date_to_iso (raw : Option String) (today : Date) : Option Date :=
  match raw with
  | none => none
  | some s₀ =>
      let s := strTrim s₀
      match fromisoformat (strReplace s "Z" "+00:00") with
      | some dtv => some dtv.date
      | none => parse_date_flexible s today

/-- The pydantic validation performed by `SearchCriteria(**crit)`:
`passengers` must lie in `1..9` and `class_preference` must be one of the
three literals. -/
def mkSearchCriteria (dep arr : Option String) (d : Option Date) (pax : Int)
    (cp : Option String) : Except String SearchCriteria :=
  if pax < 1 ∨ 9 < pax then .error "passengers must be between 1 and 9"
  else
    match cp with
    | none => .ok ⟨dep, arr, d, pax, none⟩
    | some "Economy" => .ok ⟨dep, arr, d, pax, some .economy⟩
    | some "Business" => .ok ⟨dep, arr, d, pax, some .business⟩
    | some "First" => .ok ⟨dep, arr, d, pax, some .first⟩
    | some _ => .error "class_preference must be one of Economy, Business, First"

/-- Sort order of search results: ascending price, ties by descending seats
(`key=lambda x: (x.price_usd, -x.seats_available)`). -/
def flightOrder (a b : Flight) : Prop :=
  a.price_usd < b.price_usd ∨ (a.price_usd = b.price_usd ∧ b.seats_available ≤ a.seats_available)

instance : DecidableRel flightOrder := fun a b => by
  unfold flightOrder; infer_instance

/-- The filter-and-sort pipeline of `get_available_flights` (lines 127-149):
strict two-city branch or exploration branch, then the optional exact-date
filter, then the price/seats sort. -/
def searchResults (flights : List Flight) (c : SearchCriteria) : List Flight :=
  let filtered_city :=
    if optTruthyStr c.departure_city && optTruthyStr c.arrival_city then
      flights.filter (fun f =>
        (normalize f.departure_city == normalize (c.departure_city.getD "")) &&
        (normalize f.arrival_city == normalize (c.arrival_city.getD "")) &&
        is_bookable f &&
        (pyOrInt c.passengers 1 ≤ f.seats_available) &&
        (c.class_preference.all (fun cp => f.available_classes.contains cp)))
    else
      flights.filter (fun f =>
        matches_cities f c &&
        is_bookable f &&
        (pyOrInt c.passengers 1 ≤ f.seats_available) &&
        (c.class_preference.all (fun cp => f.available_classes.contains cp)))
  let filtered := filtered_city.filter (fun f => matches_date f c.departure_date)
  List.insertionSort flightOrder filtered

/-- Success payload of a search. -/
structure SearchResultsData where
  criteria : SearchCriteria
  flights : List PublicFlight
  facets : Facets
  needs : List String
deriving DecidableEq, Repr

/-- Payload of a search envelope. -/
inductive SearchData
  | invalidInput (error : String)
  | results (d : SearchResultsData)
deriving DecidableEq, Repr

/-- `get_available_flights`.  `flights` models `load_flights(ACTIVE_DATASET)`
and `today` the process clock used by the date normalizer. -/
def get_available_flights (flights : List Flight) (today : Date)
    (departure_city : Option String := none) (arrival_city : Option String := none)
    (departure_date : Option String := none) (passengers : Option Int := some 1)
    (class_preference : Option String := none) (date : Option String := none)
    (travel_date : Option String := none) : Envelope SearchData :=
  let raw_date := pyOrStr (pyOrStr departure_date travel_date) date
  let parsed_iso := _coerce_date_to_iso raw_date today
  let paxArg : Int := match passengers with | none => 1 | some n => pyOrInt n 1
  match mkSearchCriteria departure_city arrival_city parsed_iso paxArg class_preference with
  | .error e =>
      ⟨false, "FLIGHT_SEARCH_INVALID_INPUT", "Invalid search criteria.", .invalidInput e⟩
  | .ok c =>
      let results := searchResults flights c
      let facet_info := facets_for flights c
      let public := results.map Flight.to_public
      let needs :=
        (if ¬ optTruthyStr c.departure_city then ["departure_city"] else []) ++
        (if optTruthyStr c.departure_city ∧ ¬ optTruthyStr c.arrival_city then
          ["arrival_city"] else []) ++
        (if optTruthyStr c.departure_city ∧ optTruthyStr c.arrival_city ∧
            c.departure_date = none then ["departure_date"] else [])
      let codeMsg :=
        if optTruthyStr c.departure_city ∧ optTruthyStr c.arrival_city then
          if public ≠ [] then
            ("FLIGHT_SEARCH_OK",
             "Found " ++ toString public.length ++ " flight(s) from " ++
               c.departure_city.getD "" ++ " to " ++ c.arrival_city.getD "" ++ ".")
          else
            ("FLIGHT_SEARCH_PARTIAL_OK",
             "No exact-date results yet for " ++ c.departure_city.getD "" ++ " → " ++
               c.arrival_city.getD "" ++ ". Here are available dates you can pick.")
        else
          ("FLIGHT_SEARCH_EXPLORE", "Select a destination and/or date from the available options.")
      ⟨true, codeMsg.1, codeMsg.2, .results ⟨c, public, facet_info, needs⟩⟩

/-! ## Python values, truthiness and exceptions (reservation inputs) -/

/-- Heterogeneous Python/JSON value for passenger entries. -/
inductive PyVal
  | none
  | bool (b : Bool)
  | int (n : Int)
  | str (s : String)
  | list (l : List PyVal)
  | dict (fields : List (String × PyVal))
deriving Repr

/-- Python truthiness. -/
def PyVal.truthy : PyVal → Bool
  | .none => false
  | .bool b => b
  | .int n => n ≠ 0
  | .str s => s ≠ ""
  | .list l => !l.isEmpty
  | .dict fs => !fs.isEmpty

/-- Is this value a Python dict? -/
def PyVal.isDict : PyVal → Bool
  | .dict _ => true
  | _ => false

/-- The exceptions `create_reservation` can let escape. -/
inductive PyExn
  | attributeError
deriving DecidableEq, Repr

/-- `dict.get(k)`: association-list lookup defaulting to `None`. -/
def pyDictGet (fs : List (String × PyVal)) (k : String) : PyVal :=
  (((fs.find? (fun p => p.1 = k))).map Prod.snd).getD .none

/-- `entry.get(k)`: dictionary lookup defaulting to `None`; raises
`AttributeError` on a non-dict receiver. -/
def PyVal.get? : PyVal → String → Except PyExn PyVal
  | .dict fs, k => .ok (pyDictGet fs k)
  | _, _ => .error .attributeError

/-! ## `json.loads` (the subset needed for `passengers_json`)

Model restrictions: integers only (no floats/exponents), strings without
escape sequences.  Parse failures carry a simplified message. -/

/-- Parse a JSON string body (after the opening quote; escapes unmodelled). -/
def parseJsonString : List Char → List Char → Except String (String × List Char)
  | [], _ => .error "Unterminated string"
  | '"' :: rest, acc => .ok (String.mk acc.reverse, rest)
  | '\\' :: _, _ => .error "String escapes not modelled"
  | c :: rest, acc => parseJsonString rest (c :: acc)

/-- Parse a nonempty digit run; rejects a following `.`/`e` (floats are not
modelled). -/
def parseJsonNat (cs : List Char) : Except String (Nat × List Char) :=
  let digits := cs.takeWhile Char.isDigit
  let rest := cs.dropWhile Char.isDigit
  if digits = [] then .error "Expecting value"
  else
    match rest with
    | '.' :: _ => .error "Float literals not modelled"
    | 'e' :: _ => .error "Float literals not modelled"
    | 'E' :: _ => .error "Float literals not modelled"
    | _ => .ok (digits.foldl (fun acc c => acc * 10 + (c.toNat - 48)) 0, rest)

mutual

/-- Parse one JSON value; `fuel` bounds recursion depth. -/
def parseJsonVal : Nat → List Char → Except String (PyVal × List Char)
  | 0, _ => .error "Expecting value"
  | fuel + 1, cs =>
      match cs.dropWhile Char.isWhitespace with
      | [] => .error "Expecting value"
      | 'n' :: 'u' :: 'l' :: 'l' :: rest => .ok (.none, rest)
      | 't' :: 'r' :: 'u' :: 'e' :: rest => .ok (.bool true, rest)
      | 'f' :: 'a' :: 'l' :: 's' :: 'e' :: rest => .ok (.bool false, rest)
      | '"' :: rest =>
          (parseJsonString rest []).map (fun p => (.str p.1, p.2))
      | '[' :: rest =>
          (match rest.dropWhile Char.isWhitespace with
           | ']' :: rest' => .ok (.list [], rest')
           | _ => (parseJsonArr fuel rest []).map (fun p => (.list p.1, p.2)))
      | '{' :: rest =>
          (match rest.dropWhile Char.isWhitespace with
           | '}' :: rest' => .ok (.dict [], rest')
           | _ => (parseJsonObj fuel rest []).map (fun p => (.dict p.1, p.2)))
      | '-' :: rest =>
          (parseJsonNat rest).map (fun p => (.int (-(p.1 : Int)), p.2))
      | c :: rest =>
          if c.isDigit then (parseJsonNat (c :: rest)).map (fun p => (.int (p.1 : Int), p.2))
          else .error "Expecting value"

/-- Parse the elements of a (non-empty) JSON array after `[`. -/
def parseJsonArr : Nat → List Char → List PyVal → Except String (List PyVal × List Char)
  | 0, _, _ => .error "Expecting value"
  | fuel + 1, cs, acc => do
      let (v, rest) ← parseJsonVal fuel cs
      match rest.dropWhile Char.isWhitespace with
      | ']' :: rest' => .ok (acc ++ [v], rest')
      | ',' :: rest' => parseJsonArr fuel rest' (acc ++ [v])
      | _ => .error "Expecting delimiter"

/-- Parse the members of a (non-empty) JSON object after `{`. -/
def parseJsonObj : Nat → List Char → List (String × PyVal) →
    Except String (List (String × PyVal) × List Char)
  | 0, _, _ => .error "Expecting value"
  | fuel + 1, cs, acc =>
      match cs.dropWhile Char.isWhitespace with
      | '"' :: rest => do
          let (k, rest) ← parseJsonString rest []
          match rest.dropWhile Char.isWhitespace with
          | ':' :: rest' => do
              let (v, rest'') ← parseJsonVal fuel rest'
              match rest''.dropWhile Char.isWhitespace with
              | '}' :: rest₃ => .ok (acc ++ [(k, v)], rest₃)
              | ',' :: rest₃ => parseJsonObj fuel rest₃ (acc ++ [(k, v)])
              | _ => .error "Expecting delimiter"
          | _ => .error "Expecting colon"
      | _ => .error "Expecting property name"

end

/-- `json.loads`. -/
def json_loads (s : String) : Except String PyVal := do
  let (v, rest) ← parseJsonVal (s.length + 1) s.data
  if rest.dropWhile Char.isWhitespace = [] then .ok v
  else .error "Extra data"

/-! ## `tools._parse_passengers` -/

/-- Result record of `_parse_passengers`. -/
structure ParsedPassengers where
  passenger_dicts : List PyVal
  count : Int
  errors : List String
deriving Repr

/-- Lift an optional string / int argument into the entry dict value. -/
def optToPyStr : Option String → PyVal
  | some s => .str s
  | none => .none

def optToPyInt : Option Int → PyVal
  | some n => .int n
  | none => .none

/-- `tools._parse_passengers`: choose the passenger source (explicit list,
JSON text, or flattened single-passenger fields), then infer the count. -/
def _parse_passengers (passenger_count : Option Int) (passengers : Option PyVal)
    (passengers_json : Option String) (passenger_name : Option String)
    (passenger_age : Option Int) (passenger_gender : Option String)
    (passenger_dob : Option String) (passenger_email : Option String) :
    ParsedPassengers :=
  let fromList : Option (List PyVal) :=
    match passengers with
    | some (.list (e :: es)) => some (e :: es)
    | _ => none
  let (plist, errors) :=
    match fromList with
    | some l => (l, [])
    | none =>
        if optTruthyStr passengers_json then
          match json_loads (passengers_json.getD "") with
          | .ok (.list l) => (l, [])
          | .ok _ => ([], ["passengers_json must be a JSON array."])
          | .error e => ([], ["Invalid passengers_json: " ++ e])
        else if optTruthyStr passenger_name ||
            (match passenger_age with | some n => decide (n ≠ 0) | none => false) ||
            optTruthyStr passenger_gender || optTruthyStr passenger_dob ||
            optTruthyStr passenger_email then
          ([.dict [("name", optToPyStr passenger_name), ("age", optToPyInt passenger_age),
                   ("gender", optToPyStr passenger_gender), ("dob", optToPyStr passenger_dob),
                   ("email", optToPyStr passenger_email)]], [])
        else ([], [])
  let inferred_count : Int :=
    match passenger_count with
    | some n => if n ≠ 0 ∧ n > 0 then n else (if !plist.isEmpty then plist.length else 1)
    | none => if !plist.isEmpty then plist.length else 1
  ⟨plist, inferred_count, errors⟩

/-! ## Passenger validation (`create_reservation` lines 234-275) -/

/-- A per-passenger validation issue (`{"index", "field", "message"}`). -/
structure Issue where
  index : Nat
  fieldName : String
  message : String
deriving DecidableEq, Repr

/-- The `validation` sub-object of booking responses. -/
structure ValidationBlock where
  ok : Bool
  issues : List Issue
  parse_errors : List String
deriving DecidableEq, Repr

/-- `x is None`. -/
def isPyNone : PyVal → Bool
  | .none => true
  | _ => false

/-- `_missing(field, idx)`. -/
def mkMissing (fieldName : String) (idx : Nat) : Issue :=
  ⟨idx, fieldName, "Required field is missing."⟩

/-- The missing-required-field issues for one entry's five field values. -/
def missingIssues (idx : Nat) (name age gender dob email : PyVal) : List Issue :=
  (if !name.truthy then [mkMissing "name" idx] else []) ++
  (if isPyNone age then [mkMissing "age" idx] else []) ++
  (if !gender.truthy then [mkMissing "gender" idx] else []) ++
  (if !dob.truthy then [mkMissing "dob" idx] else []) ++
  (if !email.truthy then [mkMissing "email" idx] else [])

/-- `int(x)` as used on the age value (guarded by the surrounding `try`). -/
def intOf : PyVal → Except String Int
  | .int n => .ok n
  | .bool b => .ok (if b then 1 else 0)
  | .str s =>
      match strToInt? s with
      | some n => .ok n
      | none => .error ("invalid literal for int(): " ++ s)
  | _ => .error "int() argument must be a string or a number"

/-- Simplified model of the `EmailStr` syntax check: one `@`, nonempty local
part, and a dotted, nonempty domain. -/
def emailValid (s : String) : Bool :=
  match strSplitOnChar s '@' with
  | [l, d] => l ≠ "" && strContains d '.' && !strStartsWith d "." && !strEndsWith d "."
  | _ => false

/-- Strict `YYYY-MM-DD` calendar-date parse (pydantic `date` field). -/
def parseIsoDateOnly (s : String) : Option Date :=
  match parseIsoDatePart s.data with
  | some (d, []) => some d
  | _ => none

/-- `Passenger(name=name, age=int(age), gender=gender, dob=dob, email=email)`
with pydantic field validation.  (pydantic's numeric-timestamp coercion for
a non-string `dob` is not modelled and is treated as a validation error.) -/
def mkPassenger (name age gender dob email : PyVal) : Except String Passenger := do
  let a ← intOf age
  let n : String ←
    match name with
    | .str s =>
        if 2 ≤ s.length ∧ s.length ≤ 80 then Except.ok s
        else Except.error "name must have between 2 and 80 characters"
    | _ => Except.error "name must be a string"
  if a < 0 ∨ 120 < a then Except.error "age must be between 0 and 120" else do
  let g : Gender ←
    match gender with
    | .str "Male" => Except.ok Gender.male
    | .str "Female" => Except.ok Gender.female
    | .str "Other" => Except.ok Gender.other
    | _ => Except.error "gender must be Male, Female or Other"
  let d : Date ←
    match dob with
    | .str s =>
        (match parseIsoDateOnly s with
         | some d => Except.ok d
         | Option.none => Except.error ("dob is not a valid date: " ++ s))
    | _ => Except.error "dob must be a date"
  let e : String ←
    match email with
    | .str s =>
        if emailValid s then Except.ok s
        else Except.error "email is not a valid email address"
    | _ => Except.error "email must be a string"
  return ⟨n, a, g, d, e⟩

/-- `utils.approx_age_from_dob`. -/
def approx_age_from_dob (dob : Date) (at_ : DateTime) : Int :=
  let today := at_.date
  let years := today.year - dob.year -
    (if today.month < dob.month ∨ (today.month = dob.month ∧ today.day < dob.day)
     then 1 else 0)
  max 0 years

/-- `utils.validate_passenger_age_vs_dob`. -/
def validate_passenger_age_vs_dob (p : Passenger) (at_ : DateTime) : Bool × Int :=
  let calc_age := approx_age_from_dob p.dob at_
  ((calc_age - p.age).natAbs ≤ 1, calc_age)

/-- One iteration of the passenger loop: field lookups (which raise
`AttributeError` on a non-dict entry), missing-field collection, coercion
of a string `dob`, construction, and the age-vs-DOB check.  Returns the
issues recorded for this entry and the provisionally validated passenger. -/
def processEntry (now : DateTime) (idx : Nat) (entry : PyVal) :
    Except PyExn (List Issue × Option Passenger) := do
  let name ← entry.get? "name"
  let age ← entry.get? "age"
  let gender ← entry.get? "gender"
  let dob ← entry.get? "dob"
  let email ← entry.get? "email"
  let missing := missingIssues idx name age gender dob email
  if !missing.isEmpty then
    return (missing, Option.none)
  else
    let dob : PyVal :=
      match dob with
      | .str s =>
          match _coerce_date_to_iso (some s) now.date with
          | some d => .str d.iso
          | Option.none => .str s
      | v => v
    match mkPassenger name age gender dob email with
    | .error e => return ([⟨idx, "passenger", e⟩], Option.none)
    | .ok p =>
        let (ok_age, calc_age) := validate_passenger_age_vs_dob p now
        let ageIssues :=
          if ok_age then []
          else [⟨idx, "age",
                 "Age does not match DOB; expected approximately " ++ toString calc_age ++ "."⟩]
        return (ageIssues, some p)

/-- The passenger loop from index `idx` for `n` more slots; absent slots are
processed as the empty entry `{}`. -/
def processFrom (now : DateTime) (raw : List PyVal) (idx : Nat) :
    Nat → Except PyExn (List Issue × List Passenger)
  | 0 => .ok ([], [])
  | n + 1 => do
      let (iss, p?) ← processEntry now idx (raw.getD idx (.dict []))
      let (iss', ps) ← processFrom now raw (idx + 1) n
      return (iss ++ iss', p?.toList ++ ps)

/-! ## Reservation state and `create_reservation` -/

/-- The `Reservation` record. -/
structure Reservation where
  reservation_id : String
  flight_id : String
  passengers : List Passenger
  passenger_count : Int
  seat_class : String
  total_price_usd : ℚ
  booked_at : DateTime
  flight_details : Flight
deriving DecidableEq, Repr

/-- Process state: the `_RESERVATIONS` store plus the modelled uuid entropy
stream (`uuidTokens n` is the `uuid4().hex[:8].upper()` token of the `n`-th
draw). -/
structure SysState where
  reservations : List (String × Reservation)
  uuidTokens : Nat → String
  uuidIdx : Nat

/-- `utils.gen_reservation_id`: `f"RSV-{uuid.uuid4().hex[:8].upper()}"`,
consuming one token from the entropy stream. -/
def gen_reservation_id (st : SysState) : String × SysState :=
  ("RSV-" ++ st.uuidTokens st.uuidIdx, { st with uuidIdx := st.uuidIdx + 1 })

/-- `_RESERVATIONS[key] = value`: overwrite if present, else append. -/
def storeSet (store : List (String × Reservation)) (k : String) (v : Reservation) :
    List (String × Reservation) :=
  if store.any (fun p => p.1 = k) then
    store.map (fun p => if p.1 = k then (k, v) else p)
  else store ++ [(k, v)]

/-- `_find_flight_by_id`. -/
def _find_flight_by_id (flights : List Flight) (flight_id : String) : Option Flight :=
  flights.find? (fun f => f.flight_id = flight_id)

/-- `_unit_price_for_class`. -/
def _unit_price_for_class (f : Flight) (seat_class : String) : ℚ :=
  round2 (f.price_usd * dictGetD CLASS_MULTIPLIER seat_class 1.0)

/-- The bill object. -/
structure Bill where
  currency : String
  unit_price : ℚ
  passengers : Int
  subtotal : ℚ
  total : ℚ
deriving DecidableEq, Repr

/-- Payload of a reservation envelope, one constructor per `data` shape. -/
inductive ResData
  | flightNotFound (flight_id : String)
  | unbookable (flight : PublicFlight)
  | classNotAvailable (available : List CabinClass)
  | noSeats (flight : PublicFlight) (requested_passengers : Int)
  | preview (flight : PublicFlight) (seat_class : String) (passenger_count : Int)
      (passengers : List Passenger) (pending_entries : List PyVal)
      (validation : ValidationBlock) (bill : Bill) (next_action : String)
  | validationFailed (passenger_count : Int) (provided_valid : Nat)
      (validation : ValidationBlock)
  | confirmed (reservation : Reservation) (bill : Bill)
deriving Repr

/-- The padded raw entry list (`if not raw_list and pax_count > 0`). -/
def effectiveRawList (parsed : ParsedPassengers) : List PyVal :=
  if parsed.passenger_dicts.isEmpty ∧ 0 < parsed.count then
    List.replicate parsed.count.toNat (.dict [])
  else parsed.passenger_dicts

/-- The loop bound `max(pax_count, len(raw_list))`. -/
def entryBound (parsed : ParsedPassengers) : Nat :=
  max parsed.count.toNat (effectiveRawList parsed).length

/-- `tools.create_reservation`.  `flights` models the loaded catalog and
`now` the clock (used for DOB coercion, the age check and `booked_at`).
The returned `Except` is the Python call outcome: `.error` means an
exception escaped the function. -/
def create_reservation (flights : List Flight) (now : DateTime) (flight_id : String)
    (seat_class : String := "Economy") (confirm : Bool := false)
    (passenger_count : Option Int := none) (passengers : Option PyVal := none)
    (passengers_json : Option String := none) (passenger_name : Option String := none)
    (passenger_age : Option Int := none) (passenger_gender : Option String := none)
    (passenger_dob : Option String := none) (passenger_email : Option String := none)
    (st : SysState) : Except PyExn (Envelope ResData) × SysState :=
  match _find_flight_by_id flights flight_id with
  | Option.none =>
      (.ok ⟨false, "RESERVATION_FLIGHT_NOT_FOUND", "Flight not found.",
        .flightNotFound flight_id⟩, st)
  | some f =>
      if !is_bookable f then
        (.ok ⟨false, "RESERVATION_UNBOOKABLE",
          "Flight status is '" ++ f.status.val ++ "'. Not bookable.",
          .unbookable f.to_public⟩, st)
      else if !((f.available_classes.map CabinClass.val).contains seat_class) then
        (.ok ⟨false, "RESERVATION_CLASS_NOT_AVAILABLE",
          "Seat class '" ++ seat_class ++ "' not available for this flight.",
          .classNotAvailable f.available_classes⟩, st)
      else
        let parsed := _parse_passengers passenger_count passengers passengers_json
          passenger_name passenger_age passenger_gender passenger_dob passenger_email
        let pax_count := parsed.count
        let parse_errors := parsed.errors
        if f.seats_available < pax_count then
          (.ok ⟨false, "RESERVATION_NO_SEATS",
            "Only " ++ toString f.seats_available ++ " seat(s) left; requested " ++
              toString pax_count ++ ".",
            .noSeats f.to_public pax_count⟩, st)
        else
          let raw_list := effectiveRawList parsed
          match processFrom now raw_list 0 (entryBound parsed) with
          | .error e => (.error e, st)
          | .ok (issues, validated_passengers) =>
              let unit_price := _unit_price_for_class f seat_class
              let total := round2 (unit_price * (max 1 pax_count : Int))
              let bill : Bill :=
                ⟨"USD", unit_price, max 1 pax_count, total, total⟩
              if !confirm then
                (.ok ⟨true, "RESERVATION_PREVIEW",
                  "Preview generated. Provide any missing/invalid passenger details, then confirm to book.",
                  .preview f.to_public seat_class pax_count validated_passengers raw_list
                    ⟨issues.isEmpty && parse_errors.isEmpty, issues, parse_errors⟩
                    bill
                    (if issues.isEmpty && parse_errors.isEmpty then "ask_confirmation"
                     else "collect_missing_passenger_details")⟩, st)
              else if !issues.isEmpty ∨ !parse_errors.isEmpty ∨
                  (validated_passengers.length : Int) ≠ pax_count then
                (.ok ⟨false, "RESERVATION_VALIDATION_FAILED",
                  "Passenger details failed validation. Please correct before confirming.",
                  .validationFailed pax_count validated_passengers.length
                    ⟨false, issues, parse_errors⟩⟩, st)
              else
                let (reservation_id, st₁) := gen_reservation_id st
                let reservation : Reservation :=
                  ⟨reservation_id, f.flight_id, validated_passengers, pax_count,
                   seat_class, total, now, f⟩
                let st₂ := { st₁ with
                  reservations := storeSet st₁.reservations reservation_id reservation }
                (.ok ⟨true, "RESERVATION_CONFIRMED", "Your reservation is confirmed.",
                  .confirmed reservation bill⟩, st₂)

/-!
## Catalog fixture

Modelled from the spec: the catalog module (`data.py`, `ACTIVE_DATASET`) is
not part of the sources; per the spec (§8, end-to-end property, and the
welcome examples) the catalog contains at least one bookable Hong Kong →
Tokyo flight around 2025-11-09.  One representative flight is modelled. -/
def hkgTyoFlight : Flight :=
  { flight_id := "AR101", airline := "Aroya Air", flight_number := "AR101",
    departure_city := "Hong Kong", arrival_city := "Tokyo",
    departure_airport := "Hong Kong International",
    arrival_airport := "Narita International",
    departure_airport_code := "HKG", arrival_airport_code := "NRT",
    departure_time := ⟨⟨2025, 11, 9⟩, 9, 0, 0, some 480⟩,
    arrival_time := ⟨⟨2025, 11, 9⟩, 14, 10, 0, some 540⟩,
    duration := "4h 10m", aircraft_type := "A350", baggage_allowance := "23kg",
    available_classes := [.economy, .business, .first],
    price_usd := 320, seats_available := 5,
    wifi_available := true, inflight_entertainment := true, status := .onTime }

/-- Modelled from the spec: `load_flights(ACTIVE_DATASET.get("flights", []))`
for the missing dataset module. -/
def ACTIVE_DATASET_flights : List Flight := [hkgTyoFlight]

/-- A concrete process clock for concrete-input theorems. -/
def testNow : DateTime := ⟨⟨2025, 11, 9⟩, 12, 0, 0, some 0⟩

/-- Bundled arguments of one `create_reservation` call. -/
structure BookingArgs where
  flight_id : String
  seat_class : String := "Economy"
  confirm : Bool := false
  passenger_count : Option Int := none
  passengers : Option PyVal := none
  passengers_json : Option String := none
  passenger_name : Option String := none
  passenger_age : Option Int := none
  passenger_gender : Option String := none
  passenger_dob : Option String := none
  passenger_email : Option String := none

/-- Run `create_reservation` on a bundle of arguments. -/
def runBooking (flights : List Flight) (now : DateTime) (a : BookingArgs)
    (st : SysState) : Except PyExn (Envelope ResData) × SysState :=
  create_reservation flights now a.flight_id a.seat_class a.confirm a.passenger_count
    a.passengers a.passengers_json a.passenger_name a.passenger_age a.passenger_gender
    a.passenger_dob a.passenger_email st

/-- The `_parse_passengers` result of a bundle of arguments. -/
def parsedOf (a : BookingArgs) : ParsedPassengers :=
  _parse_passengers a.passenger_count a.passengers a.passengers_json a.passenger_name
    a.passenger_age a.passenger_gender a.passenger_dob a.passenger_email

/-! ## C7: flexible date parsing -/

/-- C7: `parse_date_flexible` maps `"today"` to the current date, `"tomorrow"`
to the current date plus one day, `"2025-11-26T22:00:00Z"` to 2025-11-26,
`"26 Nov"` to day 26 / November / the current year, and returns `none`
(rather than raising) on an input matching no supported pattern. -/
theorem c7_parse_date_flexible (t : Date) :
    parse_date_flexible "today" t = some t ∧
    parse_date_flexible "tomorrow" t = some t.addOneDay ∧
    parse_date_flexible "2025-11-26T22:00:00Z" t = some ⟨2025, 11, 26⟩ ∧
    parse_date_flexible "26 Nov" t = some ⟨t.year, 11, 26⟩ ∧
    parse_date_flexible "this is not a date" t = none :=
  ⟨rfl, rfl, rfl, rfl, rfl⟩

/-! ## C3: preview never mutates the store -/

/-- C3: a `create_reservation` call with `confirm=false` leaves the system
state — in particular the reservation store and its contents — unchanged,
whatever the validation outcome. -/
theorem c3_preview_frame (flights : List Flight) (now : DateTime) (flight_id : String)
    (seat_class : String) (pc : Option Int) (ps : Option PyVal) (pj : Option String)
    (pn : Option String) (pa : Option Int) (pg pd pe : Option String) (st : SysState) :
    (create_reservation flights now flight_id seat_class false pc ps pj pn pa pg pd pe st).2
      = st := by
  unfold create_reservation
  repeat' split <;> try rfl
  all_goals simp_all
  all_goals (repeat' split <;> try rfl)

/-! ## C5: ordered structural precondition checks -/

/-- C5: the structural checks of `create_reservation` fire in the fixed order
flight-not-found, unbookable, class-not-available, no-seats, each returning
its error envelope immediately with the store untouched; in particular, when
the first three pass and the (explicit / inferred / defaulted) passenger
count exceeds `seats_available`, the result is `RESERVATION_NO_SEATS`
reporting seats versus requested, whatever the passenger data — no passenger
validation is attempted. -/
theorem c5_precondition_order (flights : List Flight) (now : DateTime)
    (flight_id seat_class : String) (confirm : Bool) (pc : Option Int) (ps : Option PyVal)
    (pj pn : Option String) (pa : Option Int) (pg pd pe : Option String) (st : SysState) :
    (_find_flight_by_id flights flight_id = Option.none →
      create_reservation flights now flight_id seat_class confirm pc ps pj pn pa pg pd pe st =
        (.ok ⟨false, "RESERVATION_FLIGHT_NOT_FOUND", "Flight not found.",
          .flightNotFound flight_id⟩, st)) ∧
    (∀ f, _find_flight_by_id flights flight_id = some f → is_bookable f = false →
      create_reservation flights now flight_id seat_class confirm pc ps pj pn pa pg pd pe st =
        (.ok ⟨false, "RESERVATION_UNBOOKABLE",
          "Flight status is '" ++ f.status.val ++ "'. Not bookable.",
          .unbookable f.to_public⟩, st)) ∧
    (∀ f, _find_flight_by_id flights flight_id = some f → is_bookable f = true →
      (f.available_classes.map CabinClass.val).contains seat_class = false →
      create_reservation flights now flight_id seat_class confirm pc ps pj pn pa pg pd pe st =
        (.ok ⟨false, "RESERVATION_CLASS_NOT_AVAILABLE",
          "Seat class '" ++ seat_class ++ "' not available for this flight.",
          .classNotAvailable f.available_classes⟩, st)) ∧
    (∀ f, _find_flight_by_id flights flight_id = some f → is_bookable f = true →
      (f.available_classes.map CabinClass.val).contains seat_class = true →
      f.seats_available < (_parse_passengers pc ps pj pn pa pg pd pe).count →
      create_reservation flights now flight_id seat_class confirm pc ps pj pn pa pg pd pe st =
        (.ok ⟨false, "RESERVATION_NO_SEATS",
          "Only " ++ toString f.seats_available ++ " seat(s) left; requested " ++
            toString (_parse_passengers pc ps pj pn pa pg pd pe).count ++ ".",
          .noSeats f.to_public (_parse_passengers pc ps pj pn pa pg pd pe).count⟩, st)) := by
  refine ⟨fun h => ?_, fun f hf hb => ?_, fun f hf hb hc => ?_, fun f hf hb hc hs => ?_⟩
  · unfold create_reservation
    rw [h]
  · unfold create_reservation
    rw [hf]
    dsimp only
    rw [hb]
    rfl
  · unfold create_reservation
    rw [hf]
    dsimp only
    rw [hb, hc]
    rfl
  · unfold create_reservation
    rw [hf]
    dsimp only
    rw [hb, hc]
    rw [if_pos hs]
    rfl

/-- Witness for C5: a concrete request for 10 passengers on a 5-seat flight
is rejected with `RESERVATION_NO_SEATS`, leaving the store untouched. -/
theorem c5_precondition_order_witness :
    create_reservation ACTIVE_DATASET_flights testNow "AR101" "Economy" true (some 10)
        Option.none Option.none Option.none Option.none Option.none Option.none Option.none
        ⟨[], fun _ => "DEADBEEF", 0⟩ =
      (.ok ⟨false, "RESERVATION_NO_SEATS", "Only 5 seat(s) left; requested 10.",
        .noSeats hkgTyoFlight.to_public 10⟩, ⟨[], fun _ => "DEADBEEF", 0⟩) :=
  (c5_precondition_order ACTIVE_DATASET_flights testNow "AR101" "Economy" true (some 10)
      Option.none Option.none Option.none Option.none Option.none Option.none Option.none
      ⟨[], fun _ => "DEADBEEF", 0⟩).2.2.2 hkgTyoFlight rfl rfl rfl (by decide)

/-! ## C2: pricing -/

/-- The bill carried by a booking payload, when one is present. -/
def billOf : ResData → Option Bill
  | .preview _ _ _ _ _ _ b _ => some b
  | .confirmed _ b => some b
  | _ => none

/-- The three class literals have distinct strings. -/
theorem CabinClass.val_inj (a b : CabinClass) (h : a.val = b.val) : a = b := by
  cases a <;> cases b <;> simp_all [CabinClass.val]

/-- `find?` on a class-keyed price dictionary built by `map`. -/
theorem find_map_val (g : CabinClass → ℚ) (c : CabinClass) :
    ∀ l : List CabinClass, c ∈ l →
      (l.map (fun x => (x.val, g x))).find? (fun p => p.1 = c.val) = some (c.val, g c) := by
  intro l
  induction l with
  | nil => intro h; cases h
  | cons x tl ih =>
      intro h
      by_cases hx : x.val = c.val
      · have hxc : x = c := CabinClass.val_inj _ _ hx
        subst hxc
        simp [List.find?]
      · have hmem : c ∈ tl := by
          rcases List.mem_cons.mp h with h1 | h1
          · exact absurd (by rw [h1]) hx
          · exact h1
        simpa [List.find?, hx] using ih hmem

/-- C2: per-class unit prices are the base price times 1.00 / 1.60 / 2.25
(Economy / Business / First) rounded to 2 decimals — both in the booking
price helper and in the per-class price dictionary rendered for search —
and every preview or confirmed booking response carries a bill whose total
(and subtotal) is that unit price times `max 1 passenger_count`, rounded to
2 decimals; the bill is present exactly in preview/confirmed responses, so
it is returned even when `confirm` is false. -/
theorem c2_pricing (flights : List Flight) (now : DateTime) (flight_id seat_class : String)
    (confirm : Bool) (pc : Option Int) (ps : Option PyVal) (pj pn : Option String)
    (pa : Option Int) (pg pd pe : Option String) (st : SysState) (f : Flight)
    (hf : _find_flight_by_id flights flight_id = some f) :
    (_unit_price_for_class f "Economy" = round2 (f.price_usd * 1.00) ∧
     _unit_price_for_class f "Business" = round2 (f.price_usd * 1.60) ∧
     _unit_price_for_class f "First" = round2 (f.price_usd * 2.25)) ∧
    (∀ c : CabinClass, c ∈ f.available_classes →
      f._derived_class_prices.find? (fun p => p.1 = c.val) =
        some (c.val, _unit_price_for_class f c.val)) ∧
    (∀ env, (create_reservation flights now flight_id seat_class confirm pc ps pj
        pn pa pg pd pe st).1 = .ok env →
      ((env.code = "RESERVATION_PREVIEW" ∨ env.code = "RESERVATION_CONFIRMED") ↔
        ∃ b, billOf env.data = some b ∧
          b.unit_price = _unit_price_for_class f seat_class ∧
          b.total = round2 (b.unit_price *
            ((max 1 (_parse_passengers pc ps pj pn pa pg pd pe).count : Int) : ℚ)) ∧
          b.subtotal = b.total)) := by
  refine ⟨⟨rfl, rfl, rfl⟩, ?_, ?_⟩
  · intro c hc
    exact find_map_val (fun x => round2 (f.price_usd * dictGetD CLASS_MULTIPLIER x.val 1.0))
      c f.available_classes hc
  · unfold create_reservation
    rw [hf]
    dsimp only
    split
    · intro env henv
      injection henv with h
      subst h
      simp [billOf]
    · split
      · intro env henv
        injection henv with h
        subst h
        simp [billOf]
      · split
        · intro env henv
          injection henv with h
          subst h
          simp [billOf]
        · split
          · intro env henv
            exact (Except.noConfusion henv)
          · split
            · intro env henv
              injection henv with h
              subst h
              constructor
              · intro
                exact ⟨_, rfl, rfl, rfl, rfl⟩
              · intro
                left
                rfl
            · split
              · intro env henv
                injection henv with h
                subst h
                simp [billOf]
              · intro env henv
                injection henv with h
                subst h
                constructor
                · intro
                  exact ⟨_, rfl, rfl, rfl, rfl⟩
                · intro
                  right
                  rfl

/-- Witness for C2: at the modelled catalog flight (base price 320) the
Business unit price is 512 and a confirmed single-passenger bill totals 320. -/
theorem c2_pricing_witness :
    _unit_price_for_class hkgTyoFlight "Business" = round2 (hkgTyoFlight.price_usd * 1.60) ∧
    _unit_price_for_class hkgTyoFlight "Business" = 512 :=
  ⟨(c2_pricing ACTIVE_DATASET_flights testNow "AR101" "Business" false Option.none
      Option.none Option.none Option.none Option.none Option.none Option.none Option.none
      ⟨[], fun _ => "DEADBEEF", 0⟩ hkgTyoFlight rfl).1.2.1, by
    have h : dictGetD CLASS_MULTIPLIER "Business" 1.0 = 1.60 := rfl
    simp only [_unit_price_for_class, hkgTyoFlight, h]
    norm_num [round2]⟩

/-! ## C4: commit with validation issues -/

/-- A dict entry lacking one of the five required fields (Python truthiness
for name/gender/dob/email, `is None` for age).  A non-dict entry never
reaches the missing-field check, so it does not count. -/
def entryMissingRequired : PyVal → Bool
  | .dict fs =>
      !(pyDictGet fs "name").truthy || isPyNone (pyDictGet fs "age") ||
        !(pyDictGet fs "gender").truthy || !(pyDictGet fs "dob").truthy ||
        !(pyDictGet fs "email").truthy
  | _ => false

/-- A falsy/absent required field forces a nonempty missing-issue list. -/
theorem missingIssues_isEmpty_eq_false (idx : Nat) (n a g d em : PyVal)
    (h : (!n.truthy || isPyNone a || !g.truthy || !d.truthy || !em.truthy) = true) :
    (missingIssues idx n a g d em).isEmpty = false := by
  unfold missingIssues
  by_cases h1 : n.truthy = true <;> by_cases h2 : isPyNone a = true <;>
    by_cases h3 : g.truthy = true <;> by_cases h4 : d.truthy = true <;>
    by_cases h5 : em.truthy = true <;> simp_all

/-- Processing an entry with a missing required field records at least one
issue and validates no passenger. -/
theorem processEntry_missing (now : DateTime) (idx : Nat) (e : PyVal)
    (h : entryMissingRequired e = true) :
    ∃ iss, processEntry now idx e = .ok (iss, Option.none) ∧ iss ≠ [] := by
  match e with
  | .none | .bool _ | .int _ | .str _ | .list _ => simp [entryMissingRequired] at h
  | .dict fs =>
      simp only [entryMissingRequired] at h
      have hne := missingIssues_isEmpty_eq_false idx (pyDictGet fs "name")
        (pyDictGet fs "age") (pyDictGet fs "gender") (pyDictGet fs "dob")
        (pyDictGet fs "email") h
      have hne' : missingIssues idx (pyDictGet fs "name") (pyDictGet fs "age")
          (pyDictGet fs "gender") (pyDictGet fs "dob") (pyDictGet fs "email") ≠ [] := by
        intro hnil
        rw [hnil] at hne
        simp at hne
      refine ⟨missingIssues idx (pyDictGet fs "name") (pyDictGet fs "age")
        (pyDictGet fs "gender") (pyDictGet fs "dob") (pyDictGet fs "email"), ?_, hne'⟩
      simp [processEntry, PyVal.get?, hne', pure, Except.pure, Bind.bind, Except.bind]

/-- If some processed slot has a missing required field, the loop's issue
list is nonempty. -/
theorem processFrom_missing_ne (now : DateTime) (raw : List PyVal) :
    ∀ (n idx i : Nat), i < n →
      entryMissingRequired (raw.getD (idx + i) (.dict [])) = true →
      ∀ iss vp, processFrom now raw idx n = .ok (iss, vp) → iss ≠ [] := by
  intro n
  induction n with
  | zero => intro idx i hi; exact absurd hi (Nat.not_lt_zero i)
  | succ n ih =>
      intro idx i hi hm iss vp hp
      rw [processFrom] at hp
      cases h1 : processEntry now idx (raw.getD idx (.dict [])) with
      | error e => rw [h1] at hp; simp [Bind.bind, Except.bind] at hp
      | ok pr =>
          obtain ⟨iss0, p?⟩ := pr
          cases h2 : processFrom now raw (idx + 1) n with
          | error e => rw [h1, h2] at hp; simp [Bind.bind, Except.bind] at hp
          | ok pr2 =>
              obtain ⟨iss1, ps⟩ := pr2
              rw [h1, h2] at hp
              simp only [Bind.bind, Except.bind, pure, Except.pure, Except.ok.injEq,
                Prod.mk.injEq] at hp
              obtain ⟨hiss, _⟩ := hp
              cases i with
              | zero =>
                  rw [Nat.add_zero] at hm
                  obtain ⟨issA, hA, hAne⟩ := processEntry_missing now idx _ hm
                  rw [h1] at hA
                  injection hA with hA'
                  injection hA' with hA1 hA2
                  subst hiss
                  intro hcontra
                  rw [hA1] at hcontra
                  exact hAne (List.append_eq_nil.mp hcontra).1
              | succ j =>
                  have harith : idx + (j + 1) = (idx + 1) + j := by omega
                  rw [harith] at hm
                  have h3 := ih (idx + 1) j (by omega) hm iss1 ps h2
                  subst hiss
                  intro hcontra
                  exact h3 (List.append_eq_nil.mp hcontra).2

/-- C4: with `confirm=true`, once the structural checks pass, any recorded
validation issue or parse error — in particular a passenger slot with a
missing required field — yields `RESERVATION_VALIDATION_FAILED` with
`ok=false` and leaves the reservation store unchanged. -/
theorem c4_validation_failed (flights : List Flight) (now : DateTime)
    (flight_id seat_class : String) (pc : Option Int) (ps : Option PyVal)
    (pj pn : Option String) (pa : Option Int) (pg pd pe : Option String) (st : SysState)
    (f : Flight) (issues : List Issue) (validated : List Passenger)
    (hf : _find_flight_by_id flights flight_id = some f)
    (hb : is_bookable f = true)
    (hc : (f.available_classes.map CabinClass.val).contains seat_class = true)
    (hs : ¬ f.seats_available < (_parse_passengers pc ps pj pn pa pg pd pe).count)
    (hproc : processFrom now (effectiveRawList (_parse_passengers pc ps pj pn pa pg pd pe)) 0
      (entryBound (_parse_passengers pc ps pj pn pa pg pd pe)) = .ok (issues, validated))
    (hbad : (∃ i, i < entryBound (_parse_passengers pc ps pj pn pa pg pd pe) ∧
        entryMissingRequired ((effectiveRawList (_parse_passengers pc ps pj pn pa pg pd pe)).getD
          i (.dict [])) = true) ∨
      issues ≠ [] ∨ (_parse_passengers pc ps pj pn pa pg pd pe).errors ≠ []) :
    create_reservation flights now flight_id seat_class true pc ps pj pn pa pg pd pe st =
      (.ok ⟨false, "RESERVATION_VALIDATION_FAILED",
        "Passenger details failed validation. Please correct before confirming.",
        .validationFailed (_parse_passengers pc ps pj pn pa pg pd pe).count validated.length
          ⟨false, issues, (_parse_passengers pc ps pj pn pa pg pd pe).errors⟩⟩, st) := by
  have hbad' : issues ≠ [] ∨ (_parse_passengers pc ps pj pn pa pg pd pe).errors ≠ [] := by
    rcases hbad with ⟨i, hi, hm⟩ | h | h
    · left
      exact processFrom_missing_ne now _ _ 0 i hi (by simpa using hm) issues validated hproc
    · left; exact h
    · right; exact h
  unfold create_reservation
  rw [hf]
  dsimp only
  rw [hb, hc]
  simp only [Bool.not_true, Bool.false_eq_true, if_false]
  rw [if_neg hs, hproc]
  dsimp only
  have hcond : (!issues.isEmpty) = true ∨
      (!(_parse_passengers pc ps pj pn pa pg pd pe).errors.isEmpty) = true ∨
      ((validated.length : Int) ≠ (_parse_passengers pc ps pj pn pa pg pd pe).count) := by
    rcases hbad' with h | h
    · left; simpa [List.isEmpty_iff] using h
    · right; left; simpa [List.isEmpty_iff] using h
  split
  · rfl
  · rename_i hno
    exact absurd hcond hno

/-- Witness for C4: confirming a booking whose single flattened passenger
is missing age, gender, DOB and email fails validation and stores nothing. -/
theorem c4_validation_failed_witness :
    create_reservation ACTIVE_DATASET_flights testNow "AR101" "Economy" true Option.none
        Option.none Option.none (some "Alice Smith") Option.none Option.none Option.none
        Option.none ⟨[], fun _ => "DEADBEEF", 0⟩ =
      (.ok ⟨false, "RESERVATION_VALIDATION_FAILED",
        "Passenger details failed validation. Please correct before confirming.",
        .validationFailed 1 0
          ⟨false, [mkMissing "age" 0, mkMissing "gender" 0, mkMissing "dob" 0,
                   mkMissing "email" 0], []⟩⟩, ⟨[], fun _ => "DEADBEEF", 0⟩) :=
  c4_validation_failed ACTIVE_DATASET_flights testNow "AR101" "Economy" Option.none
    Option.none Option.none (some "Alice Smith") Option.none Option.none Option.none
    Option.none ⟨[], fun _ => "DEADBEEF", 0⟩ hkgTyoFlight
    [mkMissing "age" 0, mkMissing "gender" 0, mkMissing "dob" 0, mkMissing "email" 0] []
    rfl rfl rfl (by decide) rfl (Or.inl ⟨0, by decide, by decide⟩)

/-! ## C8: facets depend only on the city constraints -/

/-- `SearchCriteria(**crit)` keeps the city arguments unchanged. -/
theorem mkSearchCriteria_cities (dep arr : Option String) (d : Option Date) (pax : Int)
    (cp : Option String) (c₀ : SearchCriteria)
    (h : mkSearchCriteria dep arr d pax cp = .ok c₀) :
    c₀.departure_city = dep ∧ c₀.arrival_city = arr := by
  unfold mkSearchCriteria at h
  split at h
  · cases h
  · split at h <;>
      first
        | (injection h with h'; subst h'; exact ⟨rfl, rfl⟩)
        | cases h

/-- C8: the facets block equals the sorted distinct destination cities and
sorted distinct ISO departure dates over exactly the city-matching catalog
flights, and is therefore independent of the date, class-preference and
passenger-count parts of the criteria; the search envelope's facets are this
same value. -/
theorem c8_facets (flights : List Flight) (c c' : SearchCriteria)
    (hdep : c.departure_city = c'.departure_city)
    (harr : c.arrival_city = c'.arrival_city) :
    facets_for flights c = facets_for flights c' ∧
    facets_for flights c =
      { available_destinations := sortedDedup ((flights.filter (fun f =>
          cityConstraintOk c.departure_city f.departure_city &&
          cityConstraintOk c.arrival_city f.arrival_city)).map (fun f => f.arrival_city))
        available_dates := sortedDedup ((flights.filter (fun f =>
          cityConstraintOk c.departure_city f.departure_city &&
          cityConstraintOk c.arrival_city f.arrival_city)).map
            (fun f => f.departure_time.date.iso)) } ∧
    (∀ today dd pax cp dt tt r,
      (get_available_flights flights today c.departure_city c.arrival_city dd pax cp
          dt tt).data = .results r →
      r.facets = facets_for flights c) := by
  refine ⟨?_, rfl, ?_⟩
  · unfold facets_for
    rw [hdep, harr]
  · intro today dd pax cp dt tt r hr
    unfold get_available_flights at hr
    dsimp only at hr
    split at hr
    · simp at hr
    · rename_i c₀ hmk
      dsimp only at hr
      injection hr with hr'
      subst hr'
      obtain ⟨h1, h2⟩ := mkSearchCriteria_cities _ _ _ _ _ _ hmk
      dsimp only
      unfold facets_for
      rw [h1, h2]

/-- Witness for C8: on the modelled catalog, a dated two-passenger Business
search and an undated default search over the same city pair produce the
same facets. -/
theorem c8_facets_witness :
    facets_for ACTIVE_DATASET_flights
        ⟨some "Hong Kong", some "Tokyo", some ⟨2025, 12, 1⟩, 2, some .business⟩ =
      facets_for ACTIVE_DATASET_flights ⟨some "Hong Kong", some "Tokyo", none, 1, none⟩ :=
  (c8_facets ACTIVE_DATASET_flights
    ⟨some "Hong Kong", some "Tokyo", some ⟨2025, 12, 1⟩, 2, some .business⟩
    ⟨some "Hong Kong", some "Tokyo", none, 1, none⟩ rfl rfl).1

/-! ## C1: search result membership -/

/-- Bookability as a proposition on the status. -/
theorem is_bookable_iff (f : Flight) :
    is_bookable f = true ↔ f.status ≠ .cancelled ∧ f.status ≠ .landed := by
  simp [is_bookable]

/-- One city constraint as a proposition (a falsy constraint passes). -/
theorem cityConstraintOk_iff (o : Option String) (city : String) :
    cityConstraintOk o city = true ↔
      ∀ s, o = some s → s ≠ "" → normalize city = normalize s := by
  cases o with
  | none => simp [cityConstraintOk]
  | some s =>
      by_cases hs : s = "" <;> simp [cityConstraintOk, hs]

/-- The class-preference check as a proposition. -/
theorem classPref_iff (o : Option CabinClass) (l : List CabinClass) :
    o.all (fun cp => l.contains cp) = true ↔ ∀ cp, o = some cp → cp ∈ l := by
  cases o <;> simp [Option.all]

/-- The exact-date check as a proposition. -/
theorem matches_date_iff (f : Flight) (d : Option Date) :
    matches_date f d = true ↔ ∀ dd, d = some dd → f.departure_time.date = dd := by
  cases d <;> simp [matches_date]

/-- With both cities truthy, the strict two-city filter of the search and
`matches_cities` coincide. -/
theorem cityPair_eq_matches (c : SearchCriteria) (f : Flight)
    (h : (optTruthyStr c.departure_city && optTruthyStr c.arrival_city) = true) :
    ((normalize f.departure_city == normalize (c.departure_city.getD "")) &&
      (normalize f.arrival_city == normalize (c.arrival_city.getD ""))) =
      matches_cities f c := by
  obtain ⟨h1, h2⟩ := Bool.and_eq_true_iff.mp h
  cases hd : c.departure_city with
  | none => rw [hd] at h1; simp [optTruthyStr] at h1
  | some s =>
      cases ha : c.arrival_city with
      | none => rw [ha] at h2; simp [optTruthyStr] at h2
      | some s' =>
          rw [hd] at h1
          rw [ha] at h2
          simp only [optTruthyStr, decide_eq_true_eq] at h1 h2
          simp [matches_cities, cityConstraintOk, hd, ha, h1, h2]

/-- Membership in the search pipeline, phrased with the engine's own
boolean predicates. -/
theorem mem_searchResults_iff (flights : List Flight) (c : SearchCriteria) (f : Flight) :
    f ∈ searchResults flights c ↔
      f ∈ flights ∧
        (matches_cities f c && is_bookable f &&
          decide (pyOrInt c.passengers 1 ≤ f.seats_available) &&
          c.class_preference.all (fun cp => f.available_classes.contains cp) &&
          matches_date f c.departure_date) = true := by
  unfold searchResults
  by_cases hcity : (optTruthyStr c.departure_city && optTruthyStr c.arrival_city) = true
  · rw [if_pos hcity]
    simp only [List.mem_insertionSort, List.mem_filter]
    rw [cityPair_eq_matches c f hcity]
    simp only [Bool.and_eq_true]
    tauto
  · rw [if_neg hcity]
    simp only [List.mem_insertionSort, List.mem_filter]
    simp only [Bool.and_eq_true]
    tauto

/-- C1: a catalog flight appears in the list produced by the search pipeline
iff its status is neither Cancelled nor Landed, its cities match every truthy
city constraint under case-insensitive whitespace-normalized equality (an
absent constraint passes), it has at least the requested seat capacity,
offers the requested class when one is given, and departs on the requested
calendar date when one is given. -/
theorem c1_search_membership (flights : List Flight) (c : SearchCriteria)
    (hp : 1 ≤ c.passengers) (f : Flight) :
    f ∈ searchResults flights c ↔
      f ∈ flights ∧
      f.status ≠ .cancelled ∧ f.status ≠ .landed ∧
      (∀ s, c.departure_city = some s → s ≠ "" →
        normalize f.departure_city = normalize s) ∧
      (∀ s, c.arrival_city = some s → s ≠ "" →
        normalize f.arrival_city = normalize s) ∧
      c.passengers ≤ f.seats_available ∧
      (∀ cp, c.class_preference = some cp → cp ∈ f.available_classes) ∧
      (∀ d, c.departure_date = some d → f.departure_time.date = d) := by
  have hpy : pyOrInt c.passengers 1 = c.passengers := by
    unfold pyOrInt
    rw [if_pos (by omega)]
  rw [mem_searchResults_iff]
  simp only [Bool.and_eq_true, matches_cities, decide_eq_true_eq, hpy,
    is_bookable_iff, cityConstraintOk_iff, classPref_iff, matches_date_iff]
  tauto

/-- Witness for C1: on the modelled catalog, the Hong Kong → Tokyo flight is
a member of the exact-date search results for its route and date. -/
theorem c1_search_membership_witness :
    hkgTyoFlight ∈ searchResults ACTIVE_DATASET_flights
      ⟨some "hong kong", some "Tokyo", some ⟨2025, 11, 9⟩, 2, some .economy⟩ :=
  (c1_search_membership ACTIVE_DATASET_flights
      ⟨some "hong kong", some "Tokyo", some ⟨2025, 11, 9⟩, 2, some .economy⟩
      (by decide) hkgTyoFlight).mpr
    ⟨by decide, by decide, by decide,
     by intro s hs hne; cases hs; rfl,
     by intro s hs hne; cases hs; rfl,
     by decide,
     by intro cp hcp; cases hcp; decide,
     by intro d hd; cases hd; rfl⟩

/-! ## C6: reservation identifiers -/

/-- A complete, valid single-passenger confirmed-booking request (flattened
single-passenger fields) on the modelled catalog flight. -/
def c6Args : BookingArgs :=
  { flight_id := "AR101", seat_class := "Economy", confirm := true,
    passenger_name := some "Alice Smith", passenger_age := some 30,
    passenger_gender := some "Male", passenger_dob := some "1995-06-15",
    passenger_email := some "alice@example.com" }

/-- The reservation id of a call outcome, when the call confirmed a booking. -/
def confirmedReservationId : Except PyExn (Envelope ResData) → Option String
  | .ok ⟨_, _, _, .confirmed r _⟩ => some r.reservation_id
  | _ => none

/-- Assignment with a fresh key appends. -/
theorem storeSet_fresh (s : List (String × Reservation)) (k : String) (v : Reservation)
    (h : k ∉ s.map Prod.fst) : storeSet s k v = s ++ [(k, v)] := by
  unfold storeSet
  rw [if_neg]
  simp only [List.any_eq_true, decide_eq_true_eq, not_exists]
  intro p hcon
  obtain ⟨hp, hpk⟩ := hcon
  exact h (List.mem_map.mpr ⟨p, hp, hpk⟩)

/-- String concatenation with a fixed left factor is injective. -/
theorem append_left_inj (p a b : String) (h : p ++ a = p ++ b) : a = b := by
  have hd := congrArg String.data h
  simp only [String.data_append] at hd
  exact String.ext (List.append_cancel_left hd)

/-- A `create_reservation` call either does not confirm (and leaves the state
unchanged), or confirms a reservation whose identifier is `RSV-` plus the
next uuid token, storing it with `storeSet` and advancing the token index. -/
theorem runBooking_cases (flights : List Flight) (now : DateTime) (a : BookingArgs)
    (st : SysState) :
    (confirmedReservationId (runBooking flights now a st).1 = Option.none ∧
      (runBooking flights now a st).2 = st) ∨
    (confirmedReservationId (runBooking flights now a st).1 =
        some ("RSV-" ++ st.uuidTokens st.uuidIdx) ∧
      ∃ res : Reservation,
        (runBooking flights now a st).2 =
          ⟨storeSet st.reservations ("RSV-" ++ st.uuidTokens st.uuidIdx) res,
           st.uuidTokens, st.uuidIdx + 1⟩ ∧
        res.reservation_id = "RSV-" ++ st.uuidTokens st.uuidIdx) := by
  unfold runBooking create_reservation
  repeat' (first | split | dsimp only)
  all_goals try (left; exact ⟨rfl, rfl⟩)
  right
  rename gen_reservation_id _ = _ => heqpair
  unfold gen_reservation_id at heqpair
  injection heqpair with hk hst
  subst hk
  subst hst
  exact ⟨rfl, _, rfl, rfl⟩

/-- Counterexample to C6 as stated: with a uuid stream that repeats the same
8-hex token (possible, since `gen_reservation_id` truncates `uuid4` to 8 hex
characters and never checks for collisions), two sequential successful
confirmed bookings receive the *same* reservation identifier and the second
overwrites the first — the store still holds a single reservation. -/
theorem c6_unique_ids_counterexample :
    confirmedReservationId (runBooking ACTIVE_DATASET_flights testNow c6Args
        ⟨[], fun _ => "DEADBEEF", 0⟩).1 = some "RSV-DEADBEEF" ∧
    confirmedReservationId (runBooking ACTIVE_DATASET_flights testNow c6Args
        (runBooking ACTIVE_DATASET_flights testNow c6Args
          ⟨[], fun _ => "DEADBEEF", 0⟩).2).1 = some "RSV-DEADBEEF" ∧
    ((runBooking ACTIVE_DATASET_flights testNow c6Args
        (runBooking ACTIVE_DATASET_flights testNow c6Args
          ⟨[], fun _ => "DEADBEEF", 0⟩).2).2).reservations.length = 1 :=
  ⟨rfl, rfl, rfl⟩

/-- C6 (amended): two sequential successful confirmed bookings receive the
identifiers built from consecutive uuid tokens; their identifiers are
distinct, and each insertion appends rather than overwrites (the store grows
by two), *provided* the two drawn 8-hex tokens differ and both identifiers
are fresh for the store — the code itself enforces neither condition. -/
theorem c6_unique_ids_amended (flights : List Flight) (now1 now2 : DateTime)
    (a1 a2 : BookingArgs) (st : SysState)
    (h1 : confirmedReservationId (runBooking flights now1 a1 st).1 ≠ Option.none)
    (h2 : confirmedReservationId (runBooking flights now2 a2
        (runBooking flights now1 a1 st).2).1 ≠ Option.none)
    (htok : st.uuidTokens st.uuidIdx ≠ st.uuidTokens (st.uuidIdx + 1))
    (hfr1 : "RSV-" ++ st.uuidTokens st.uuidIdx ∉ st.reservations.map Prod.fst)
    (hfr2 : "RSV-" ++ st.uuidTokens (st.uuidIdx + 1) ∉ st.reservations.map Prod.fst) :
    confirmedReservationId (runBooking flights now1 a1 st).1 ≠
      confirmedReservationId (runBooking flights now2 a2
        (runBooking flights now1 a1 st).2).1 ∧
    ((runBooking flights now2 a2 (runBooking flights now1 a1 st).2).2).reservations.length =
      st.reservations.length + 2 := by
  rcases runBooking_cases flights now1 a1 st with ⟨hid, _⟩ | ⟨hid1, res1, hst1, hres1⟩
  · exact absurd hid h1
  rw [hst1] at h2 ⊢
  rcases runBooking_cases flights now2 a2
      ⟨storeSet st.reservations ("RSV-" ++ st.uuidTokens st.uuidIdx) res1,
       st.uuidTokens, st.uuidIdx + 1⟩ with ⟨hid, _⟩ | ⟨hid2, res2, hst2, hres2⟩
  · exact absurd hid h2
  dsimp only at hid2 hst2
  constructor
  · rw [hid1, hid2]
    intro heq
    injection heq with heq'
    exact htok (append_left_inj "RSV-" _ _ heq')
  · rw [hst2]
    dsimp only
    have hk1 : storeSet st.reservations ("RSV-" ++ st.uuidTokens st.uuidIdx) res1 =
        st.reservations ++ [("RSV-" ++ st.uuidTokens st.uuidIdx, res1)] :=
      storeSet_fresh _ _ _ hfr1
    have hfr2' : "RSV-" ++ st.uuidTokens (st.uuidIdx + 1) ∉
        (storeSet st.reservations ("RSV-" ++ st.uuidTokens st.uuidIdx) res1).map Prod.fst := by
      rw [hk1]
      simp only [List.map_append, List.mem_append, List.map_cons, List.map_nil,
        List.mem_singleton, not_or]
      refine ⟨hfr2, ?_⟩
      intro heq
      exact htok (append_left_inj "RSV-" _ _ heq.symm)
    rw [storeSet_fresh _ _ _ hfr2', hk1]
    simp

/-- Witness for the amended C6: with distinct tokens `AAAAAAAA`, `BBBBBBBB`
the two confirmed bookings get distinct identifiers and the store grows to 2. -/
theorem c6_unique_ids_amended_witness :
    confirmedReservationId (runBooking ACTIVE_DATASET_flights testNow c6Args
        ⟨[], fun n => if n = 0 then "AAAAAAAA" else "BBBBBBBB", 0⟩).1 ≠
      confirmedReservationId (runBooking ACTIVE_DATASET_flights testNow c6Args
        (runBooking ACTIVE_DATASET_flights testNow c6Args
          ⟨[], fun n => if n = 0 then "AAAAAAAA" else "BBBBBBBB", 0⟩).2).1 ∧
    ((runBooking ACTIVE_DATASET_flights testNow c6Args
        (runBooking ACTIVE_DATASET_flights testNow c6Args
          ⟨[], fun n => if n = 0 then "AAAAAAAA" else "BBBBBBBB", 0⟩).2).2).reservations.length =
      0 + 2 :=
  c6_unique_ids_amended ACTIVE_DATASET_flights testNow testNow c6Args c6Args
    ⟨[], fun n => if n = 0 then "AAAAAAAA" else "BBBBBBBB", 0⟩
    (by intro h; cases h) (by intro h; cases h) (by decide) (by simp) (by simp)

/-! ## C9: call-boundary behaviour -/

/-- Processing a dict entry never raises. -/
theorem processEntry_dict_ok (now : DateTime) (idx : Nat) (fs : List (String × PyVal)) :
    ∃ out, processEntry now idx (.dict fs) = .ok out := by
  unfold processEntry PyVal.get?
  dsimp only [Bind.bind, Except.bind, pure, Except.pure]
  repeat' split
  all_goals exact ⟨_, rfl⟩

/-- An entry that raises is a non-dict, and the exception is AttributeError. -/
theorem processEntry_error (now : DateTime) (idx : Nat) (e : PyVal) (err : PyExn)
    (h : processEntry now idx e = .error err) :
    err = .attributeError ∧ e.isDict = false := by
  cases err
  refine ⟨rfl, ?_⟩
  match e with
  | .dict fs =>
      obtain ⟨out, hout⟩ := processEntry_dict_ok now idx fs
      rw [hout] at h
      cases h
  | .none | .bool _ | .int _ | .str _ | .list _ => rfl

/-- When the passenger loop raises, the exception is AttributeError and some
provided raw entry is not a dict. -/
theorem processFrom_error (now : DateTime) (raw : List PyVal) :
    ∀ (n idx : Nat) (err : PyExn), processFrom now raw idx n = .error err →
      err = .attributeError ∧ ∃ p ∈ raw, p.isDict = false := by
  intro n
  induction n with
  | zero => intro idx err h; cases h
  | succ n ih =>
      intro idx err h
      rw [processFrom] at h
      cases h1 : processEntry now idx (raw.getD idx (.dict [])) with
      | error e =>
          rw [h1] at h
          dsimp only [Bind.bind, Except.bind] at h
          injection h with h'
          subst h'
          obtain ⟨herr, hdict⟩ := processEntry_error now idx _ _ h1
          refine ⟨herr, ?_⟩
          by_cases hlt : idx < raw.length
          · refine ⟨raw.getD idx (.dict []), ?_, hdict⟩
            rw [List.getD_eq_getElem raw _ hlt]
            exact List.getElem_mem hlt
          · rw [List.getD_eq_default raw _ (by omega)] at hdict
            cases hdict
      | ok pr =>
          obtain ⟨iss0, p?⟩ := pr
          cases h2 : processFrom now raw (idx + 1) n with
          | error e2 =>
              rw [h1, h2] at h
              dsimp only [Bind.bind, Except.bind] at h
              injection h with h'
              subst h'
              exact ih (idx + 1) e2 h2
          | ok pr2 =>
              rw [h1, h2] at h
              dsimp only [Bind.bind, Except.bind, pure, Except.pure] at h
              cases h

/-- A non-dict member of the effective raw list is a provided entry (the
padding entries are empty dicts). -/
theorem mem_effectiveRawList_not_dict (parsed : ParsedPassengers) (p : PyVal)
    (hp : p ∈ effectiveRawList parsed) (hd : p.isDict = false) :
    p ∈ parsed.passenger_dicts := by
  unfold effectiveRawList at hp
  split at hp
  · have := List.eq_of_mem_replicate hp
    subst this
    cases hd
  · exact hp

/-- C9 (amended): `get_available_flights` is total and returns one of its
four envelope codes with `ok=false` exactly on invalid input; for every
input whose passenger entries are all JSON objects, `create_reservation`
returns one of its seven envelope codes with `ok=false` exactly on the five
failure codes — but when some provided passenger entry is not an object the
call raises `AttributeError` (from `entry.get`) past the call boundary, and
that is the only escaping exception. -/
theorem c9_totality (flights : List Flight) (today : Date) (dep arr dd : Option String)
    (pax : Option Int) (cp : Option String) (dt tt : Option String)
    (now : DateTime) (a : BookingArgs) (st : SysState) :
    ((get_available_flights flights today dep arr dd pax cp dt tt).code ∈
        ["FLIGHT_SEARCH_INVALID_INPUT", "FLIGHT_SEARCH_OK", "FLIGHT_SEARCH_PARTIAL_OK",
         "FLIGHT_SEARCH_EXPLORE"] ∧
      ((get_available_flights flights today dep arr dd pax cp dt tt).ok = false ↔
        (get_available_flights flights today dep arr dd pax cp dt tt).code =
          "FLIGHT_SEARCH_INVALID_INPUT")) ∧
    (∀ env, (runBooking flights now a st).1 = .ok env →
      env.code ∈ ["RESERVATION_FLIGHT_NOT_FOUND", "RESERVATION_UNBOOKABLE",
        "RESERVATION_CLASS_NOT_AVAILABLE", "RESERVATION_NO_SEATS", "RESERVATION_PREVIEW",
        "RESERVATION_VALIDATION_FAILED", "RESERVATION_CONFIRMED"] ∧
      (env.ok = false ↔ env.code ∈ ["RESERVATION_FLIGHT_NOT_FOUND", "RESERVATION_UNBOOKABLE",
        "RESERVATION_CLASS_NOT_AVAILABLE", "RESERVATION_NO_SEATS",
        "RESERVATION_VALIDATION_FAILED"])) ∧
    (∀ e, (runBooking flights now a st).1 = .error e →
      e = .attributeError ∧ ∃ p ∈ (parsedOf a).passenger_dicts, p.isDict = false) := by
  refine ⟨?_, ?_, ?_⟩
  · unfold get_available_flights
    dsimp only
    split
    · exact ⟨by simp, by simp⟩
    · dsimp only
      split
      · split
        · exact ⟨by simp, by simp⟩
        · exact ⟨by simp, by simp⟩
      · exact ⟨by simp, by simp⟩
  · intro env henv
    unfold runBooking create_reservation at henv
    repeat' (first | split at henv | dsimp only at henv)
    all_goals first
      | (injection henv with hinj; subst hinj; exact ⟨by simp, by simp⟩)
      | (cases henv)
  · intro e he
    unfold runBooking create_reservation at he
    repeat' (first | split at he | dsimp only at he)
    all_goals try (cases he)
    all_goals
      rename processFrom _ _ _ _ = _ => heqproc
    all_goals
      obtain ⟨herr, p, hpmem, hpd⟩ := processFrom_error now _ _ 0 _ heqproc
    all_goals
      exact ⟨herr, p, mem_effectiveRawList_not_dict _ _ hpmem hpd, hpd⟩

/-- Counterexample to C9 as stated: a passenger entry of non-object shape
(the JSON-style list `[1]`) makes `create_reservation` raise AttributeError
at `entry.get("name")` instead of returning an envelope. -/
theorem c9_totality_counterexample :
    (runBooking ACTIVE_DATASET_flights testNow
        { flight_id := "AR101", confirm := false, passengers := some (.list [.int 1]) }
        ⟨[], fun _ => "DEADBEEF", 0⟩).1 = .error .attributeError := rfl

/-- Witness for the amended C9: a concrete invalid-input search gets the
invalid-input code with `ok=false`, and a concrete all-object booking call
returns a `RESERVATION_PREVIEW` envelope with `ok=true`. -/
theorem c9_totality_witness :
    (get_available_flights ACTIVE_DATASET_flights ⟨2025, 11, 9⟩ (some "Hong Kong")
        (some "Tokyo") Option.none (some 99) Option.none Option.none Option.none).code =
      "FLIGHT_SEARCH_INVALID_INPUT" ∧
    ∀ env, (runBooking ACTIVE_DATASET_flights testNow c6Args
        ⟨[], fun _ => "DEADBEEF", 0⟩).1 = .ok env →
      env.code ∈ ["RESERVATION_FLIGHT_NOT_FOUND", "RESERVATION_UNBOOKABLE",
        "RESERVATION_CLASS_NOT_AVAILABLE", "RESERVATION_NO_SEATS", "RESERVATION_PREVIEW",
        "RESERVATION_VALIDATION_FAILED", "RESERVATION_CONFIRMED"] :=
  ⟨by
    have h := (c9_totality ACTIVE_DATASET_flights ⟨2025, 11, 9⟩ (some "Hong Kong")
      (some "Tokyo") Option.none (some 99) Option.none Option.none Option.none testNow
      c6Args ⟨[], fun _ => "DEADBEEF", 0⟩).1.2
    have hok : (get_available_flights ACTIVE_DATASET_flights ⟨2025, 11, 9⟩ (some "Hong Kong")
        (some "Tokyo") Option.none (some 99) Option.none Option.none Option.none).ok
        = false := rfl
    exact h.mp hok,
   fun env henv =>
    ((c9_totality ACTIVE_DATASET_flights ⟨2025, 11, 9⟩ (some "Hong Kong") (some "Tokyo")
      Option.none (some 99) Option.none Option.none Option.none testNow c6Args
      ⟨[], fun _ => "DEADBEEF", 0⟩).2.1 env henv).1⟩

/-! ## C10: preview / commit count-mismatch inconsistency -/

/-- Two complete, individually valid passenger entries. -/
def c10Passengers : PyVal :=
  .list [
    .dict [("name", .str "Alice Smith"), ("age", .int 30), ("gender", .str "Male"),
           ("dob", .str "1995-06-15"), ("email", .str "alice@example.com")],
    .dict [("name", .str "Bob Jones"), ("age", .int 28), ("gender", .str "Male"),
           ("dob", .str "1997-03-02"), ("email", .str "bob@example.com")]]

/-- The C10 request: an explicit `passenger_count` of 1 with a list of two
complete passengers. -/
def c10Args (confirm : Bool) : BookingArgs :=
  { flight_id := "AR101", seat_class := "Economy", confirm := confirm,
    passenger_count := some 1, passengers := some c10Passengers }

/-- The issue list of a preview payload. -/
def ResData.previewIssues : ResData → Option (List Issue)
  | .preview _ _ _ _ _ v _ _ => some v.issues
  | _ => none

/-- The parse-error list of a preview payload. -/
def ResData.previewParseErrors : ResData → Option (List String)
  | .preview _ _ _ _ _ v _ _ => some v.parse_errors
  | _ => none

/-- The `next_action` hint of a preview payload. -/
def ResData.previewNextAction : ResData → Option String
  | .preview _ _ _ _ _ _ _ na => some na
  | _ => none

/-- C10: for a request whose passenger entries are all complete and valid but
whose list is longer than the explicit `passenger_count`, the preview call
succeeds with `RESERVATION_PREVIEW`, an empty issue list and
`next_action = "ask_confirmation"`, while the identical call with
`confirm=true` fails with `RESERVATION_VALIDATION_FAILED` and leaves the
store unchanged. -/
theorem c10_preview_commit_mismatch :
    ∃ env1 env2 : Envelope ResData,
      (runBooking ACTIVE_DATASET_flights testNow (c10Args false)
          ⟨[], fun _ => "DEADBEEF", 0⟩).1 = .ok env1 ∧
      env1.ok = true ∧
      env1.code = "RESERVATION_PREVIEW" ∧
      env1.data.previewIssues = some [] ∧
      env1.data.previewParseErrors = some [] ∧
      env1.data.previewNextAction = some "ask_confirmation" ∧
      (runBooking ACTIVE_DATASET_flights testNow (c10Args true)
          ⟨[], fun _ => "DEADBEEF", 0⟩).1 = .ok env2 ∧
      env2.ok = false ∧
      env2.code = "RESERVATION_VALIDATION_FAILED" ∧
      (runBooking ACTIVE_DATASET_flights testNow (c10Args true)
          ⟨[], fun _ => "DEADBEEF", 0⟩).2 = ⟨[], fun _ => "DEADBEEF", 0⟩ :=
  ⟨_, _, rfl, rfl, rfl, rfl, rfl, rfl, rfl, rfl, rfl, rfl⟩

end AroyaAir
